import Mathlib

/-!
Verification of the `maybe` optional-value container of the Wmbat/monads
repository.

The repository contains three near-identical variants of the same type:
  * `src/libreglisse/maybe.hpp`  — `monad::maybe` built on a nested `storage`
    class (the canonical variant; `else if` swap, flag-clearing `reset`,
    value-comparing `operator<=>`, assertion-guarded `value()`, unchecked
    `operator*`);
  * `src/monads/maybe.hpp`       — same shape, but `storage::swap` uses three
    independent `if` statements, `maybe::reset` never clears `m_is_engaged`,
    and `operator<=>` compares `lhs.value() <=> rhs.has_value()`;
  * `src/include/monads/maybe.hpp` — storage inlined into `maybe`; shares the
    `reset` and `operator<=>` defects, and its `operator*` delegates to the
    assertion-guarded `value()`.

The embedding models the manual tagged-slot storage as a record of
  * `bytes : Option T` — `some v` means the buffer currently contains a live,
    constructed `T` object with value `v` (its lifetime was begun by
    `std::construct_at` or by writing through `value()` and has not been ended
    by `std::destroy_at`); `none` means no constructed object is present;
  * `is_engaged : Bool` — the discriminant `m_is_engaged`.
Reading `*pointer()` from a buffer that holds no constructed object yields an
indeterminate value, modelled by `default` of an `Inhabited` instance.

Lifetime-sensitive operations additionally return the list of
construct/destroy events (`std::construct_at` / `std::destroy_at` calls on the
slot) they perform, so that destructor-once properties can be stated.
`std::swap` on two live `T` objects is modelled as a pure exchange of the two
slot values: its temporary is a stack object whose construct and destroy
balance out and which never lives in either slot.
-/

namespace Spec2Proof

/-- A lifetime event on a storage slot: one `std::construct_at` call or one
`std::destroy_at` call. -/
inductive Ev where
  | construct
  | destroy
deriving DecidableEq, Repr

/-- Number of `destroy` events in an event list. -/
def destroyCount (es : List Ev) : Nat :=
  (es.filter (fun e => decide (e = Ev.destroy))).length

/-- Number of `construct` events in an event list. -/
def constructCount (es : List Ev) : Nat :=
  (es.filter (fun e => decide (e = Ev.construct))).length

/-- The state of one `maybe`/`storage` object: the raw buffer (`m_bytes`,
abstracted to the constructed object it holds, if any) and the discriminant
`m_is_engaged`. -/
structure Storage (T : Type) where
  bytes : Option T
  is_engaged : Bool
deriving DecidableEq, Repr

variable {T U V R : Type}

namespace Storage

/-- The source's `*pointer()` read: the constructed object's value when one is
present, otherwise an indeterminate value (modelled as `default`). -/
def read [Inhabited T] (s : Storage T) : T :=
  s.bytes.getD default

/-- `storage()` / `maybe()` / `maybe(none_t)`: default construction, empty. -/
def empty : Storage T := ⟨none, false⟩

/-- `storage(const value_type&)` and `storage(value_type&&)`: sets
`m_is_engaged{true}` and `std::construct_at(pointer(), value)`. -/
def ofValue (v : T) : Storage T × List Ev :=
  (⟨some v, true⟩, [Ev.construct])

/-- `storage(const storage& rhs)` (libreglisse): copies the discriminant and,
if engaged, `std::construct_at(pointer(), rhs.value())`. -/
def copyCtor [Inhabited T] (rhs : Storage T) : Storage T × List Ev :=
  if rhs.is_engaged then (⟨some rhs.read, true⟩, [Ev.construct])
  else (⟨none, false⟩, [])

/-- `storage(storage&& rhs)` (libreglisse, lines 107-116): copies the
discriminant and, if engaged, `std::construct_at(pointer(),
std::move(rhs.value()))` and sets `rhs.m_is_engaged = false`. The moved-from
`T` object in `rhs`'s buffer is NOT destroyed: its lifetime continues (bytes
unchanged) while the discriminant now says empty. Returns (new storage,
updated rhs, events). -/
def moveCtor [Inhabited T] (rhs : Storage T) : (Storage T × Storage T) × List Ev :=
  if rhs.is_engaged then ((⟨some rhs.read, true⟩, ⟨rhs.bytes, false⟩), [Ev.construct])
  else ((⟨none, false⟩, rhs), [])

/-- `~storage()` (libreglisse, lines 117-124): if engaged,
`std::destroy_at(pointer())`. Returns the destroy events the destructor
performs. -/
def dtorEvents (s : Storage T) : List Ev :=
  if s.is_engaged then [Ev.destroy] else []

/-- `operator=(const storage& rhs)` (libreglisse, non-self case): destroy own
value if engaged, copy the discriminant, construct from `rhs.value()` if the
new discriminant is engaged. -/
def copyAssignS [Inhabited T] (l r : Storage T) : Storage T × List Ev :=
  let e1 : List Ev := if l.is_engaged then [Ev.destroy] else []
  let b1 : Option T := if l.is_engaged then none else l.bytes
  if r.is_engaged then (⟨some r.read, true⟩, e1 ++ [Ev.construct])
  else (⟨b1, false⟩, e1)

/-- `operator=(storage&& rhs)` (libreglisse, non-self case): destroy own value
if engaged, take rhs's discriminant, clear rhs's discriminant, construct from
the moved `rhs.value()` if engaged. `rhs`'s moved-from object keeps its
lifetime. Returns (updated this, updated rhs, events). -/
def moveAssignS [Inhabited T] (l r : Storage T) : (Storage T × Storage T) × List Ev :=
  let e1 : List Ev := if l.is_engaged then [Ev.destroy] else []
  let b1 : Option T := if l.is_engaged then none else l.bytes
  if r.is_engaged then ((⟨some r.read, true⟩, ⟨r.bytes, false⟩), e1 ++ [Ev.construct])
  else ((⟨b1, false⟩, ⟨r.bytes, false⟩), e1)

/-- `storage::reset` (libreglisse, lines 220-227): if engaged,
`std::destroy_at(pointer())` and `m_is_engaged = false`. -/
def resetS (s : Storage T) : Storage T × List Ev :=
  if s.is_engaged then (⟨none, false⟩, [Ev.destroy]) else (s, [])

/-- `maybe::reset` of the `src/monads/maybe.hpp` variant (lines 381-387) and
of the `src/include/monads/maybe.hpp` variant (lines 228-234): if
`has_value()`, `std::destroy_at(pointer())` — the discriminant is NOT
cleared. -/
def resetMonads (s : Storage T) : Storage T × List Ev :=
  if s.is_engaged then (⟨none, s.is_engaged⟩, [Ev.destroy]) else (s, [])

/-- `storage::swap` of `src/libreglisse/maybe.hpp` (lines 172-195): four-way
`else if` dispatch. In the mixed cases the receiving side's value is written
by assignment through `value()` into the raw buffer (no `construct_at`), and
the giving side's object is destroyed. -/
def swapLib [Inhabited T] (a b : Storage T) : (Storage T × Storage T) × List Ev :=
  if a.is_engaged && b.is_engaged then
    ((⟨some b.read, true⟩, ⟨some a.read, true⟩), [])
  else if a.is_engaged && !b.is_engaged then
    ((⟨none, false⟩, ⟨some a.read, true⟩), [Ev.destroy])
  else if !a.is_engaged && b.is_engaged then
    ((⟨some b.read, true⟩, ⟨none, false⟩), [Ev.destroy])
  else ((a, b), [])

/-- `storage::swap` of `src/monads/maybe.hpp` (lines 159-182): the same three
guarded blocks but as three INDEPENDENT `if` statements, each re-reading the
flags mutated by the previous block. Block 2: swap the flags, assign this
value into other's buffer, destroy this object. Block 3: swap the flags,
assign other's value into this buffer, destroy other's object. -/
def swapMonads [Inhabited T] (a b : Storage T) : (Storage T × Storage T) × List Ev :=
  let p1 : Storage T × Storage T :=
    if a.is_engaged && b.is_engaged then
      (⟨some b.read, a.is_engaged⟩, ⟨some a.read, b.is_engaged⟩)
    else (a, b)
  let a1 := p1.1
  let b1 := p1.2
  let q : (Storage T × Storage T) × List Ev :=
    if a1.is_engaged && !b1.is_engaged then
      ((⟨none, b1.is_engaged⟩, ⟨some a1.read, a1.is_engaged⟩), [Ev.destroy])
    else ((a1, b1), [])
  let a2 := q.1.1
  let b2 := q.1.2
  let r : (Storage T × Storage T) × List Ev :=
    if !a2.is_engaged && b2.is_engaged then
      ((⟨some b2.read, b2.is_engaged⟩, ⟨none, a2.is_engaged⟩), [Ev.destroy])
    else ((a2, b2), [])
  ((r.1.1, r.1.2), q.2 ++ r.2)

/-- `maybe::take` (libreglisse, lines 454-459): `maybe ret = std::move(*this);
reset(); return ret;`. Returns (returned maybe, updated this, events). -/
def takeS [Inhabited T] (s : Storage T) : (Storage T × Storage T) × List Ev :=
  let m := moveCtor s
  let r := resetS m.1.2
  ((m.1.1, r.1), m.2 ++ r.2)

/-- `maybe::map` (libreglisse, lines 497-553; also `src/monads/maybe.hpp`
lines 389-414): if engaged, return a maybe constructed from
`std::invoke(fun, value())`, else return `none`. All four ref-qualified
overloads share this branch structure; value category does not affect the
result value in this model. The second component counts the `std::invoke`
calls on `fun` the body performs. -/
def mapC [Inhabited T] (m : Storage T) (f : T → U) : Storage U × Nat :=
  if m.is_engaged then ((ofValue (f m.read)).1, 1) else (empty, 0)

/-- `maybe::and_then` (libreglisse, lines 628-687): if engaged, return
`std::invoke(fun, value())` directly (the function itself returns a maybe),
else return `none`. Second component counts `fun` invocations. -/
def andThenC [Inhabited T] (m : Storage T) (f : T → Storage U) : Storage U × Nat :=
  if m.is_engaged then (f m.read, 1) else (empty, 0)

/-- `maybe::map_or` (libreglisse, lines 559-622): if engaged, return
`std::invoke(fun, value())`, else return the fallback value. Second component
counts `fun` invocations. -/
def mapOrC [Inhabited T] (m : Storage T) (f : T → R) (other : R) : R × Nat :=
  if m.is_engaged then (f m.read, 1) else (other, 0)

/-- `maybe::map_or_else` (libreglisse, lines 754-825): if engaged, return
`std::invoke(fun, value())`, else return `std::invoke(def)`. Second component
counts invocations of `fun` (the function taking the held value). -/
def mapOrElseC [Inhabited T] (m : Storage T) (f : T → R) (d : Unit → R) : R × Nat :=
  if m.is_engaged then (f m.read, 1) else (d (), 0)

end Storage

/-- The `InvalidAccess` condition: the assertion `assert(has_value())` firing
(or, in a raised-error build, the raised error). -/
inductive AccessErr where
  | invalidAccess
deriving DecidableEq, Repr

/-- `maybe::value() &` (libreglisse, lines 417-422): `assert(has_value())`,
then return the storage value. `.error` models the assertion firing. -/
def maybe_value_lv [Inhabited T] (m : Storage T) : Except AccessErr T :=
  if m.is_engaged then Except.ok m.read else Except.error AccessErr.invalidAccess

/-- `maybe::value() const&` (libreglisse, lines 426-431): identical guard. -/
def maybe_value_clv [Inhabited T] (m : Storage T) : Except AccessErr T :=
  if m.is_engaged then Except.ok m.read else Except.error AccessErr.invalidAccess

/-- `maybe::value() &&` (libreglisse, lines 435-440): identical guard; the
returned value is moved, which does not change its value in this model. -/
def maybe_value_rv [Inhabited T] (m : Storage T) : Except AccessErr T :=
  if m.is_engaged then Except.ok m.read else Except.error AccessErr.invalidAccess

/-- `maybe::value() const&&` (libreglisse, lines 444-449): identical guard. -/
def maybe_value_crv [Inhabited T] (m : Storage T) : Except AccessErr T :=
  if m.is_engaged then Except.ok m.read else Except.error AccessErr.invalidAccess

/-- `maybe::value()` of the `src/include/monads/maybe.hpp` variant (lines
189-212): same `assert(has_value())` guard in all four overloads. -/
def maybe_value_incl [Inhabited T] (m : Storage T) : Except AccessErr T :=
  if m.is_engaged then Except.ok m.read else Except.error AccessErr.invalidAccess

/-- `maybe::operator*() &` (libreglisse, line 382): `return
m_storage.value();` — no assertion, no engagement check; on an empty maybe it
silently yields the indeterminate content of the unconstructed buffer. -/
def maybe_star_lv [Inhabited T] (m : Storage T) : Except AccessErr T :=
  Except.ok m.read

/-- `maybe::operator*() const&` (libreglisse, lines 386-389): no check. -/
def maybe_star_clv [Inhabited T] (m : Storage T) : Except AccessErr T :=
  Except.ok m.read

/-- `maybe::operator*() &&` (libreglisse, lines 393-396): no check. -/
def maybe_star_rv [Inhabited T] (m : Storage T) : Except AccessErr T :=
  Except.ok m.read

/-- `maybe::operator*() const&&` (libreglisse, lines 400-403): no check. -/
def maybe_star_crv [Inhabited T] (m : Storage T) : Except AccessErr T :=
  Except.ok m.read

/-- `maybe::operator*() const&` of the `src/include/monads/maybe.hpp` variant
(lines 148-151): `return value();` — it delegates to the assertion-guarded
`value()`, so the assertion fires on an empty maybe. -/
def maybe_star_incl_clv [Inhabited T] (m : Storage T) : Except AccessErr T :=
  maybe_value_incl m

/-- Claim C9: map composition law. For every maybe `m` and composable
functions `f` and `g`, `m.map(f).map(g)` equals `m.map(compose(g,f))`:
equal engagement and equal held value. -/
theorem c9_map_composition [Inhabited T] [Inhabited U] (m : Storage T)
    (f : T → U) (g : U → V) :
    (Storage.mapC (Storage.mapC m f).1 g).1 = (Storage.mapC m (fun t => g (f t))).1 := by
  cases h : m.is_engaged <;>
    simp [Storage.mapC, Storage.ofValue, Storage.empty, Storage.read, h]

/-- Claim C8: `and_then` flattening. On an engaged maybe, `and_then(f)`
returns the direct (already-flat) result of `f`; on an empty maybe it returns
an empty maybe of the result type; in particular, if `f` returns an empty
maybe the whole result is empty, never an engaged maybe containing an empty
maybe. -/
theorem c8_and_then_flattening [Inhabited T] (m : Storage T) (f : T → Storage U) :
    (m.is_engaged = true → (Storage.andThenC m f).1 = f m.read) ∧
    (m.is_engaged = false → (Storage.andThenC m f).1 = Storage.empty) ∧
    (m.is_engaged = true → (f m.read).is_engaged = false →
      ((Storage.andThenC m f).1).is_engaged = false) := by
  refine ⟨fun h => ?_, fun h => ?_, fun h h2 => ?_⟩
  · simp [Storage.andThenC, h]
  · simp [Storage.andThenC, h]
  · simp [Storage.andThenC, h, h2]

/-- Claim C8 witness: an engaged maybe chained with a function returning an
empty maybe yields an empty result. -/
theorem c8_and_then_flattening_witness :
    ((Storage.andThenC ((Storage.ofValue (4 : Nat)).1)
      (fun _ => (Storage.empty : Storage Nat))).1).is_engaged = false :=
  (c8_and_then_flattening ((Storage.ofValue (4 : Nat)).1)
    (fun _ => (Storage.empty : Storage Nat))).2.2 rfl rfl

/-- Claim C7: on an empty maybe, `map`, `and_then`, `map_or` and
`map_or_else` never invoke the function taking the held value; on an engaged
maybe, `map` and `and_then` invoke it exactly once. -/
theorem c7_combinator_invocation [Inhabited T] (m : Storage T)
    (f : T → U) (g : T → Storage U) (h1 : T → R) (r : R) (d : Unit → R) :
    (m.is_engaged = false →
      (Storage.mapC m f).2 = 0 ∧ (Storage.andThenC m g).2 = 0 ∧
      (Storage.mapOrC m h1 r).2 = 0 ∧ (Storage.mapOrElseC m h1 d).2 = 0) ∧
    (m.is_engaged = true →
      (Storage.mapC m f).2 = 1 ∧ (Storage.andThenC m g).2 = 1) := by
  refine ⟨fun h => ?_, fun h => ?_⟩ <;>
    simp [Storage.mapC, Storage.andThenC, Storage.mapOrC, Storage.mapOrElseC, h]

/-- Claim C7 witness: concrete invocation counts on an empty and on an
engaged maybe of Nat. -/
theorem c7_combinator_invocation_witness :
    (Storage.mapC (Storage.empty : Storage Nat) (fun n => n + 1)).2 = 0 ∧
    (Storage.mapC ((Storage.ofValue (5 : Nat)).1) (fun n => n + 1)).2 = 1 :=
  ⟨((c7_combinator_invocation (Storage.empty : Storage Nat) (fun n => n + 1)
      (fun _ => Storage.empty) (fun n => n) 0 (fun _ => 0)).1 rfl).1,
   ((c7_combinator_invocation ((Storage.ofValue (5 : Nat)).1) (fun n => n + 1)
      (fun _ => Storage.empty) (fun n => n) 0 (fun _ => 0)).2 rfl).1⟩

/-- C++ `bool` converted to `int` for a mixed `int <=> bool` comparison. -/
def boolToInt (b : Bool) : Int := cond b 1 0

/-- `operator==(const maybe&, const maybe&)` (libreglisse, lines 846-864, and
identically in the other two variants): unequal engagement is unequal, both
empty is equal, both engaged compares the held values. -/
def maybe_eq [Inhabited T] [DecidableEq T] (a b : Storage T) : Bool :=
  if a.is_engaged != b.is_engaged then false
  else if !a.is_engaged then true
  else decide (a.read = b.read)

/-- `operator<=>(const maybe&, const maybe&)` of `src/libreglisse/maybe.hpp`
(lines 893-906): if both engaged, `lhs.value() <=> rhs.value()`, else
`lhs.has_value() <=> rhs.has_value()` (`false < true`). Specialised to
`int`-valued maybes. -/
def maybe_cmp_lib (a b : Storage Int) : Ordering :=
  if a.is_engaged && b.is_engaged then compare a.read b.read
  else compare (boolToInt a.is_engaged) (boolToInt b.is_engaged)

/-- `operator<=>(const maybe&, const maybe&)` of `src/monads/maybe.hpp`
(lines 458-468) and of `src/include/monads/maybe.hpp` (lines 316-326): if
both engaged, `lhs.value() <=> rhs.has_value()` — the right-hand side is the
BOOLEAN `has_value()`, promoted to `int`, not the held value. -/
def maybe_cmp_monads (a b : Storage Int) : Ordering :=
  if a.is_engaged && b.is_engaged then compare a.read (boolToInt b.is_engaged)
  else compare (boolToInt a.is_engaged) (boolToInt b.is_engaged)

/-- Claim C6, failing evaluation: in the `src/monads/maybe.hpp` variant,
`maybe<int>{1} <=> maybe<int>{2}` compares `1` with `int(rhs.has_value()) = 1`
and returns `equivalent`, while the comparison of the two held values is
`less`. -/
theorem c6_cmp_monads_failing_eval :
    maybe_cmp_monads ((Storage.ofValue (1 : Int)).1) ((Storage.ofValue (2 : Int)).1)
        = Ordering.eq ∧
    compare (1 : Int) (2 : Int) = Ordering.lt := by
  constructor <;> decide

/-- Supporting: the libreglisse three-way comparison does satisfy the claimed
contract on representative states, and equality behaves as claimed. -/
theorem cmp_lib_and_eq_cases (v w : Int) :
    maybe_cmp_lib (⟨some v, true⟩ : Storage Int) ⟨some w, true⟩ = compare v w ∧
    maybe_cmp_lib (⟨none, false⟩ : Storage Int) ⟨some w, true⟩ = Ordering.lt ∧
    maybe_cmp_lib (⟨some v, true⟩ : Storage Int) ⟨none, false⟩ = Ordering.gt ∧
    maybe_cmp_lib (⟨none, false⟩ : Storage Int) (⟨none, false⟩ : Storage Int)
        = Ordering.eq ∧
    maybe_eq (⟨none, false⟩ : Storage Int) (⟨none, false⟩ : Storage Int) = true ∧
    maybe_eq (⟨none, false⟩ : Storage Int) ⟨some w, true⟩ = false ∧
    maybe_eq (⟨some v, true⟩ : Storage Int) ⟨some w, true⟩ = decide (v = w) := by
  refine ⟨?_, ?_, ?_, ?_, ?_, ?_, ?_⟩ <;>
    simp [maybe_cmp_lib, maybe_eq, Storage.read, boolToInt] <;> decide

/-- Claim C5: calling `value()` on an empty maybe triggers the configured
failure path (the `assert(has_value())`, modelled as `.error`) in all four
ref-qualified overloads of the libreglisse variant and in the
`src/include/monads/maybe.hpp` variant; it never silently returns a value. -/
theorem c5_empty_value_access [Inhabited T] (m : Storage T)
    (h : m.is_engaged = false) :
    maybe_value_lv m = Except.error AccessErr.invalidAccess ∧
    maybe_value_clv m = Except.error AccessErr.invalidAccess ∧
    maybe_value_rv m = Except.error AccessErr.invalidAccess ∧
    maybe_value_crv m = Except.error AccessErr.invalidAccess ∧
    maybe_value_incl m = Except.error AccessErr.invalidAccess := by
  simp [maybe_value_lv, maybe_value_clv, maybe_value_rv, maybe_value_crv,
    maybe_value_incl, h]

/-- Claim C5 witness: the default-constructed empty maybe of Nat fails all
five accesses. -/
theorem c5_empty_value_access_witness :
    maybe_value_lv (Storage.empty : Storage Nat) = Except.error AccessErr.invalidAccess ∧
    maybe_value_clv (Storage.empty : Storage Nat) = Except.error AccessErr.invalidAccess ∧
    maybe_value_rv (Storage.empty : Storage Nat) = Except.error AccessErr.invalidAccess ∧
    maybe_value_crv (Storage.empty : Storage Nat) = Except.error AccessErr.invalidAccess ∧
    maybe_value_incl (Storage.empty : Storage Nat) = Except.error AccessErr.invalidAccess :=
  c5_empty_value_access (Storage.empty : Storage Nat) rfl

/-- Claim C10 counterexample: in the `src/include/monads/maybe.hpp` variant,
`operator*` delegates to the assertion-guarded `value()`, so dereferencing an
empty maybe DOES trigger the InvalidAccess failure path — refuting the claim
that no `operator*` overload performs an engagement check. -/
theorem c10_counterexample :
    maybe_star_incl_clv (Storage.empty : Storage Nat)
      = Except.error AccessErr.invalidAccess := rfl

/-- Claim C10 amended: in the libreglisse variant (and the `src/monads`
variant, whose `operator*` bodies are identical), all four `operator*`
overloads perform no engagement check and silently yield the storage
contents — on an empty maybe, the indeterminate content of the unconstructed
buffer; the `src/include/monads` variant's `operator*` instead delegates to
the assertion-guarded `value()`. -/
theorem c10_deref_amended [Inhabited T] (m : Storage T) :
    (maybe_star_lv m = Except.ok m.read ∧
     maybe_star_clv m = Except.ok m.read ∧
     maybe_star_rv m = Except.ok m.read ∧
     maybe_star_crv m = Except.ok m.read) ∧
    maybe_star_incl_clv m = maybe_value_incl m :=
  ⟨⟨rfl, rfl, rfl, rfl⟩, rfl⟩

/-- Claim C3, failing evaluation: in the `src/monads/maybe.hpp` variant (and
identically in `src/include/monads/maybe.hpp`), `reset` on an engaged
`maybe<int>` destroys the held object but leaves `m_is_engaged` true, so the
container is NOT empty afterwards; a second `reset` issues a second
`destroy_at` on the already-destroyed object. -/
theorem c3_reset_monads_failing_eval :
    Storage.resetMonads (⟨some 1, true⟩ : Storage Nat) = (⟨none, true⟩, [Ev.destroy]) ∧
    Storage.resetMonads (⟨none, true⟩ : Storage Nat) = (⟨none, true⟩, [Ev.destroy]) := by
  constructor <;> rfl

/-- Supporting: the libreglisse `storage::reset` does satisfy the claim — it
leaves the container empty, and a second reset performs no further destroy. -/
theorem resetS_correct (s : Storage T) :
    ((Storage.resetS s).1).is_engaged = false ∧
    Storage.resetS (Storage.resetS s).1 = ((Storage.resetS s).1, []) := by
  cases h : s.is_engaged <;> simp [Storage.resetS, h]

/-- Claim C2, failing evaluation: in the `src/monads/maybe.hpp` variant,
swapping (engaged holding 1, empty) fires block 2 AND then block 3 (block 2's
flag swap makes block 3's guard true), leaving the pair unchanged as
(engaged 1, empty) instead of (empty, engaged 1), and issuing two
`destroy_at` calls though only one object was ever constructed. -/
theorem c2_swap_monads_failing_eval :
    Storage.swapMonads (⟨some 1, true⟩ : Storage Nat) ⟨none, false⟩
      = ((⟨some 1, true⟩, ⟨none, false⟩), [Ev.destroy, Ev.destroy]) := by
  rfl

/-- Supporting: the libreglisse `storage::swap` exchanges the full state
correctly in all four engagement combinations, with at most one destroy. -/
theorem swapLib_four_cases [Inhabited T] (v w : T) :
    Storage.swapLib (⟨some v, true⟩ : Storage T) ⟨some w, true⟩
      = ((⟨some w, true⟩, ⟨some v, true⟩), []) ∧
    Storage.swapLib (⟨some v, true⟩ : Storage T) ⟨none, false⟩
      = ((⟨none, false⟩, ⟨some v, true⟩), [Ev.destroy]) ∧
    Storage.swapLib (⟨none, false⟩ : Storage T) ⟨some w, true⟩
      = ((⟨some w, true⟩, ⟨none, false⟩), [Ev.destroy]) ∧
    Storage.swapLib (⟨none, false⟩ : Storage T) (⟨none, false⟩ : Storage T)
      = ((⟨none, false⟩, ⟨none, false⟩), []) := by
  refine ⟨?_, ?_, ?_, ?_⟩ <;> simp [Storage.swapLib, Storage.read]

/-- Claim C4 counterexample: moving from an engaged maybe (libreglisse move
constructor) and then destroying the moved-from container triggers ZERO
destroy calls, not exactly one: the move clears the discriminant without
destroying the moved-from object, so the destructor skips it. -/
theorem c4_counterexample :
    destroyCount ((Storage.moveCtor (Storage.ofValue (1 : Nat)).1).2
      ++ Storage.dtorEvents ((Storage.moveCtor (Storage.ofValue (1 : Nat)).1).1.2)) ≠ 1 := by
  decide

/-- Claim C4 amended: resetting an engaged maybe triggers exactly one destroy
call, and destroying an engaged maybe triggers exactly one destroy call; but
moving from an engaged maybe and then destroying the moved-from container
triggers zero destroy calls (the moved-from object's destructor is skipped) —
the single destroy of the transferred value happens when the destination
container is destroyed. -/
theorem c4_destroy_once_amended [Inhabited T] (v : T) :
    destroyCount (Storage.resetS (Storage.ofValue v).1).2 = 1 ∧
    destroyCount (Storage.dtorEvents (Storage.ofValue v).1) = 1 ∧
    destroyCount ((Storage.moveCtor (Storage.ofValue v).1).2
      ++ Storage.dtorEvents ((Storage.moveCtor (Storage.ofValue v).1).1.2)) = 0 ∧
    destroyCount (Storage.dtorEvents ((Storage.moveCtor (Storage.ofValue v).1).1.1)) = 1 := by
  refine ⟨rfl, rfl, ?_, rfl⟩
  simp [Storage.moveCtor, Storage.ofValue, Storage.dtorEvents, destroyCount]

/-- Supporting: across the whole move lifecycle (engage, move-construct,
destroy source, destroy destination) the libreglisse maybe performs two
constructs but only one destroy: the moved-from object is leaked. -/
theorem move_lifecycle_leak (v : Nat) :
    constructCount ((Storage.ofValue v).2
        ++ (Storage.moveCtor (Storage.ofValue v).1).2
        ++ Storage.dtorEvents ((Storage.moveCtor (Storage.ofValue v).1).1.2)
        ++ Storage.dtorEvents ((Storage.moveCtor (Storage.ofValue v).1).1.1)) = 2 ∧
    destroyCount ((Storage.ofValue v).2
        ++ (Storage.moveCtor (Storage.ofValue v).1).2
        ++ Storage.dtorEvents ((Storage.moveCtor (Storage.ofValue v).1).1.2)
        ++ Storage.dtorEvents ((Storage.moveCtor (Storage.ofValue v).1).1.1)) = 1 := by
  constructor <;>
    simp [Storage.moveCtor, Storage.ofValue, Storage.dtorEvents, destroyCount,
      constructCount]

/-- One operation of a finite operation sequence on a world of maybe
containers (indices into a growing list). Binary operations read the source
container and write back both affected containers; combinator operations
append the freshly produced container. Out-of-range indices act on a
default-constructed empty container, leaving the world's containers
unchanged. -/
inductive Op where
  | newEmpty
  | newVal (v : Nat)
  | newCopy (j : Nat)
  | newMove (j : Nat)
  | assignCopy (i j : Nat)
  | assignMove (i j : Nat)
  | doReset (i : Nat)
  | doTake (i : Nat)
  | doSwap (i j : Nat)
  | doMapSucc (j : Nat)
  | doAndThenJust (j : Nat)
  | doAndThenNone (j : Nat)
deriving DecidableEq, Repr

/-- Effect of one operation on the world, each container transition given by
the libreglisse source operation it names. Copy/move assignment and swap are
self-call-guarded exactly as in the source (`this != &rhs`; a self-swap of
the storage leaves the state unchanged). -/
def step (w : List (Storage Nat)) (op : Op) : List (Storage Nat) :=
  match op with
  | Op.newEmpty => w ++ [Storage.empty]
  | Op.newVal v => w ++ [(Storage.ofValue v).1]
  | Op.newCopy j => w ++ [(Storage.copyCtor (w.getD j Storage.empty)).1]
  | Op.newMove j =>
      let p := Storage.moveCtor (w.getD j Storage.empty)
      (w.set j p.1.2) ++ [p.1.1]
  | Op.assignCopy i j =>
      if i = j then w
      else w.set i (Storage.copyAssignS (w.getD i Storage.empty) (w.getD j Storage.empty)).1
  | Op.assignMove i j =>
      if i = j then w
      else
        let p := Storage.moveAssignS (w.getD i Storage.empty) (w.getD j Storage.empty)
        (w.set i p.1.1).set j p.1.2
  | Op.doReset i => w.set i (Storage.resetS (w.getD i Storage.empty)).1
  | Op.doTake i =>
      let p := Storage.takeS (w.getD i Storage.empty)
      (w.set i p.1.2) ++ [p.1.1]
  | Op.doSwap i j =>
      if i = j then w
      else
        let p := Storage.swapLib (w.getD i Storage.empty) (w.getD j Storage.empty)
        (w.set i p.1.1).set j p.1.2
  | Op.doMapSucc j => w ++ [(Storage.mapC (w.getD j Storage.empty) Nat.succ).1]
  | Op.doAndThenJust j =>
      w ++ [(Storage.andThenC (w.getD j Storage.empty) (fun v => (Storage.ofValue v).1)).1]
  | Op.doAndThenNone j =>
      w ++ [(Storage.andThenC (w.getD j Storage.empty) (fun _ => (Storage.empty : Storage Nat))).1]

/-- The world reached from the empty world by a finite operation sequence. -/
def run (ops : List Op) : List (Storage Nat) :=
  ops.foldl step []

/-- Modelled from the spec: the engagement each container should report,
tracked purely by the claim's words — `has_value()` is true iff a value was
most recently constructed into the slot and has not since been reset, taken,
or moved-from. Construct-empty yields false; construct-from-value yields
true; copying takes the source's engagement; moving takes it and marks the
source false; reset makes false; take hands the engagement to the returned
container and marks the source false; swap exchanges engagements; map keeps
the source's engagement for the new container; and_then's new container is
engaged iff the chained function constructed a value into it. -/
def specStep (f : List Bool) (op : Op) : List Bool :=
  match op with
  | Op.newEmpty => f ++ [false]
  | Op.newVal _ => f ++ [true]
  | Op.newCopy j => f ++ [f.getD j false]
  | Op.newMove j => (f.set j false) ++ [f.getD j false]
  | Op.assignCopy i j => if i = j then f else f.set i (f.getD j false)
  | Op.assignMove i j => if i = j then f else (f.set i (f.getD j false)).set j false
  | Op.doReset i => f.set i false
  | Op.doTake i => (f.set i false) ++ [f.getD i false]
  | Op.doSwap i j => if i = j then f else (f.set i (f.getD j false)).set j (f.getD i false)
  | Op.doMapSucc j => f ++ [f.getD j false]
  | Op.doAndThenJust j => f ++ [f.getD j false]
  | Op.doAndThenNone _ => f ++ [false]

/-- Engagement tracked by the spec-level machine over a whole trace. -/
def specRun (ops : List Op) : List Bool :=
  ops.foldl specStep []

/-- The discriminants the implementation world reports. -/
def flags (w : List (Storage Nat)) : List Bool :=
  w.map (fun c => c.is_engaged)

/-- The one-sided consistency check: an engaged discriminant implies a
constructed object in the buffer. -/
def okStorage (c : Storage Nat) : Bool :=
  !c.is_engaged || c.bytes.isSome

/-- The check over a whole world. -/
def allOk (w : List (Storage Nat)) : Bool :=
  w.all okStorage

theorem flags_append (w : List (Storage Nat)) (c : Storage Nat) :
    flags (w ++ [c]) = flags w ++ [c.is_engaged] := by
  simp [flags]

theorem flags_set (w : List (Storage Nat)) (i : Nat) (c : Storage Nat) :
    flags (w.set i c) = (flags w).set i c.is_engaged := by
  simp [flags, List.map_set]

theorem flags_getD (w : List (Storage Nat)) (j : Nat) :
    (flags w)[j]?.getD false = (w[j]?.getD Storage.empty).is_engaged := by
  simp only [flags, List.getElem?_map]
  cases h : w[j]? <;> simp [h, Storage.empty]

theorem ofValue_flag (v : Nat) : ((Storage.ofValue v).1).is_engaged = true := rfl

theorem copyCtor_flag [Inhabited T] (s : Storage T) :
    ((Storage.copyCtor s).1).is_engaged = s.is_engaged := by
  cases h : s.is_engaged <;> simp [Storage.copyCtor, h]

theorem moveCtor_ret_flag [Inhabited T] (s : Storage T) :
    ((Storage.moveCtor s).1.1).is_engaged = s.is_engaged := by
  cases h : s.is_engaged <;> simp [Storage.moveCtor, h]

theorem moveCtor_src_flag [Inhabited T] (s : Storage T) :
    ((Storage.moveCtor s).1.2).is_engaged = false := by
  cases h : s.is_engaged <;> simp [Storage.moveCtor, h]

theorem copyAssignS_flag [Inhabited T] (l r : Storage T) :
    ((Storage.copyAssignS l r).1).is_engaged = r.is_engaged := by
  cases hl : l.is_engaged <;> cases hr : r.is_engaged <;>
    simp [Storage.copyAssignS, hl, hr]

theorem moveAssignS_l_flag [Inhabited T] (l r : Storage T) :
    ((Storage.moveAssignS l r).1.1).is_engaged = r.is_engaged := by
  cases hl : l.is_engaged <;> cases hr : r.is_engaged <;>
    simp [Storage.moveAssignS, hl, hr]

theorem moveAssignS_r_flag [Inhabited T] (l r : Storage T) :
    ((Storage.moveAssignS l r).1.2).is_engaged = false := by
  cases hl : l.is_engaged <;> cases hr : r.is_engaged <;>
    simp [Storage.moveAssignS, hl, hr]

theorem resetS_flag (s : Storage T) :
    ((Storage.resetS s).1).is_engaged = false := by
  cases h : s.is_engaged <;> simp [Storage.resetS, h]

theorem takeS_ret_flag [Inhabited T] (s : Storage T) :
    ((Storage.takeS s).1.1).is_engaged = s.is_engaged := by
  cases h : s.is_engaged <;> simp [Storage.takeS, Storage.moveCtor, Storage.resetS, h]

theorem takeS_src_flag [Inhabited T] (s : Storage T) :
    ((Storage.takeS s).1.2).is_engaged = false := by
  cases h : s.is_engaged <;> simp [Storage.takeS, Storage.moveCtor, Storage.resetS, h]

theorem swapLib_l_flag [Inhabited T] (a b : Storage T) :
    ((Storage.swapLib a b).1.1).is_engaged = b.is_engaged := by
  cases ha : a.is_engaged <;> cases hb : b.is_engaged <;>
    simp [Storage.swapLib, ha, hb]

theorem swapLib_r_flag [Inhabited T] (a b : Storage T) :
    ((Storage.swapLib a b).1.2).is_engaged = a.is_engaged := by
  cases ha : a.is_engaged <;> cases hb : b.is_engaged <;>
    simp [Storage.swapLib, ha, hb]

theorem mapC_flag [Inhabited T] (s : Storage T) (f : T → U) :
    ((Storage.mapC s f).1).is_engaged = s.is_engaged := by
  cases h : s.is_engaged <;>
    simp [Storage.mapC, Storage.ofValue, Storage.empty, h]

theorem andThenJust_flag [Inhabited T] (s : Storage T) :
    ((Storage.andThenC s (fun v => (Storage.ofValue v).1)).1).is_engaged
      = s.is_engaged := by
  cases h : s.is_engaged <;>
    simp [Storage.andThenC, Storage.ofValue, Storage.empty, h]

theorem andThenNone_flag [Inhabited T] (s : Storage T) :
    ((Storage.andThenC s (fun _ => (Storage.empty : Storage U))).1).is_engaged
      = false := by
  cases h : s.is_engaged <;>
    simp [Storage.andThenC, Storage.empty, h]

/-- One step of the implementation refines one step of the spec-level
engagement machine. -/
theorem step_flags (w : List (Storage Nat)) (op : Op) :
    flags (step w op) = specStep (flags w) op := by
  cases op with
  | newEmpty => simp [step, specStep, flags_append, Storage.empty]
  | newVal v => simp [step, specStep, flags_append, ofValue_flag]
  | newCopy j => simp [step, specStep, flags_append, copyCtor_flag, flags_getD]
  | newMove j =>
      simp [step, specStep, flags_append, flags_set, moveCtor_ret_flag,
        moveCtor_src_flag, flags_getD]
  | assignCopy i j =>
      by_cases hij : i = j <;>
        simp [step, specStep, hij, flags_set, copyAssignS_flag, flags_getD]
  | assignMove i j =>
      by_cases hij : i = j <;>
        simp [step, specStep, hij, flags_set, moveAssignS_l_flag,
          moveAssignS_r_flag, flags_getD]
  | doReset i => simp [step, specStep, flags_set, resetS_flag]
  | doTake i =>
      simp [step, specStep, flags_append, flags_set, takeS_ret_flag,
        takeS_src_flag, flags_getD]
  | doSwap i j =>
      by_cases hij : i = j <;>
        simp [step, specStep, hij, flags_set, swapLib_l_flag, swapLib_r_flag,
          flags_getD]
  | doMapSucc j => simp [step, specStep, flags_append, mapC_flag, flags_getD]
  | doAndThenJust j =>
      simp [step, specStep, flags_append, andThenJust_flag, flags_getD]
  | doAndThenNone j =>
      simp [step, specStep, flags_append, andThenNone_flag]

theorem run_flags_aux (ops : List Op) (w : List (Storage Nat)) :
    flags (ops.foldl step w) = ops.foldl specStep (flags w) := by
  induction ops generalizing w with
  | nil => rfl
  | cons op ops ih => simpa [step_flags] using ih (step w op)

/-- The discriminants of the reached world coincide with the spec-level
engagement tracking on every trace. -/
theorem run_flags (ops : List Op) : flags (run ops) = specRun ops :=
  run_flags_aux ops []

theorem okStorage_of_flag_false (c : Storage Nat) (h : c.is_engaged = false) :
    okStorage c = true := by
  simp [okStorage, h]

theorem okStorage_of_bytes_some (c : Storage Nat) (h : c.bytes.isSome = true) :
    okStorage c = true := by
  simp [okStorage, h]

theorem allOk_append (w : List (Storage Nat)) (c : Storage Nat)
    (hw : allOk w = true) (hc : okStorage c = true) : allOk (w ++ [c]) = true := by
  simp [allOk] at hw ⊢
  exact ⟨hw, hc⟩

theorem allOk_set (w : List (Storage Nat)) (i : Nat) (c : Storage Nat)
    (hw : allOk w = true) (hc : okStorage c = true) : allOk (w.set i c) = true := by
  induction w generalizing i with
  | nil => simp [allOk]
  | cons d w ih =>
      simp [allOk] at hw
      cases i with
      | zero => simpa [allOk] using ⟨hc, hw.2⟩
      | succ i =>
          have := ih i (by simpa [allOk] using hw.2)
          simpa [allOk] using ⟨hw.1, by simpa [allOk] using this⟩

theorem okStorage_ofValue (v : Nat) : okStorage (Storage.ofValue v).1 = true := rfl

theorem okStorage_copyCtor (s : Storage Nat) :
    okStorage (Storage.copyCtor s).1 = true := by
  cases h : s.is_engaged <;> simp [Storage.copyCtor, okStorage, h, Storage.read]

theorem okStorage_moveCtor_ret (s : Storage Nat) :
    okStorage (Storage.moveCtor s).1.1 = true := by
  cases h : s.is_engaged <;> simp [Storage.moveCtor, okStorage, h, Storage.read]

theorem okStorage_moveCtor_src (s : Storage Nat) :
    okStorage (Storage.moveCtor s).1.2 = true := by
  cases h : s.is_engaged <;> simp [Storage.moveCtor, okStorage, h]

theorem okStorage_copyAssignS (l r : Storage Nat) :
    okStorage (Storage.copyAssignS l r).1 = true := by
  cases hl : l.is_engaged <;> cases hr : r.is_engaged <;>
    simp [Storage.copyAssignS, okStorage, hl, hr]

theorem okStorage_moveAssignS_l (l r : Storage Nat) :
    okStorage (Storage.moveAssignS l r).1.1 = true := by
  cases hl : l.is_engaged <;> cases hr : r.is_engaged <;>
    simp [Storage.moveAssignS, okStorage, hl, hr]

theorem okStorage_moveAssignS_r (l r : Storage Nat) :
    okStorage (Storage.moveAssignS l r).1.2 = true := by
  cases hl : l.is_engaged <;> cases hr : r.is_engaged <;>
    simp [Storage.moveAssignS, okStorage, hl, hr]

theorem okStorage_resetS (s : Storage Nat) :
    okStorage (Storage.resetS s).1 = true :=
  okStorage_of_flag_false _ (resetS_flag s)

theorem okStorage_takeS_ret (s : Storage Nat) :
    okStorage (Storage.takeS s).1.1 = true := by
  cases h : s.is_engaged <;>
    simp [Storage.takeS, Storage.moveCtor, Storage.resetS, okStorage, h, Storage.read]

theorem okStorage_takeS_src (s : Storage Nat) :
    okStorage (Storage.takeS s).1.2 = true :=
  okStorage_of_flag_false _ (takeS_src_flag s)

theorem okStorage_swapLib_l (a b : Storage Nat) :
    okStorage (Storage.swapLib a b).1.1 = true := by
  cases ha : a.is_engaged <;> cases hb : b.is_engaged <;>
    simp [Storage.swapLib, okStorage, ha, hb]

theorem okStorage_swapLib_r (a b : Storage Nat) :
    okStorage (Storage.swapLib a b).1.2 = true := by
  cases ha : a.is_engaged <;> cases hb : b.is_engaged <;>
    simp [Storage.swapLib, okStorage, ha, hb]

theorem okStorage_mapC (s : Storage Nat) (f : Nat → Nat) :
    okStorage (Storage.mapC s f).1 = true := by
  cases h : s.is_engaged <;>
    simp [Storage.mapC, Storage.ofValue, Storage.empty, okStorage, h]

theorem okStorage_andThenJust (s : Storage Nat) :
    okStorage (Storage.andThenC s (fun v => (Storage.ofValue v).1)).1 = true := by
  cases h : s.is_engaged <;>
    simp [Storage.andThenC, Storage.ofValue, Storage.empty, okStorage, h]

theorem okStorage_andThenNone (s : Storage Nat) :
    okStorage (Storage.andThenC s (fun _ => (Storage.empty : Storage Nat))).1 = true :=
  okStorage_of_flag_false _ (andThenNone_flag s)

/-- Every container a step writes into the world satisfies the one-sided
consistency check, so the check is preserved. -/
theorem step_allOk (w : List (Storage Nat)) (op : Op) (hw : allOk w = true) :
    allOk (step w op) = true := by
  cases op with
  | newEmpty => exact allOk_append _ _ hw rfl
  | newVal v => exact allOk_append _ _ hw (okStorage_ofValue v)
  | newCopy j => exact allOk_append _ _ hw (okStorage_copyCtor _)
  | newMove j =>
      exact allOk_append _ _ (allOk_set _ _ _ hw (okStorage_moveCtor_src _))
        (okStorage_moveCtor_ret _)
  | assignCopy i j =>
      by_cases hij : i = j
      · simpa [step, hij] using hw
      · simpa [step, hij] using allOk_set _ _ _ hw (okStorage_copyAssignS _ _)
  | assignMove i j =>
      by_cases hij : i = j
      · simpa [step, hij] using hw
      · simpa [step, hij] using
          allOk_set _ _ _ (allOk_set _ _ _ hw (okStorage_moveAssignS_l _ _))
            (okStorage_moveAssignS_r _ _)
  | doReset i => exact allOk_set _ _ _ hw (okStorage_resetS _)
  | doTake i =>
      exact allOk_append _ _ (allOk_set _ _ _ hw (okStorage_takeS_src _))
        (okStorage_takeS_ret _)
  | doSwap i j =>
      by_cases hij : i = j
      · simpa [step, hij] using hw
      · simpa [step, hij] using
          allOk_set _ _ _ (allOk_set _ _ _ hw (okStorage_swapLib_l _ _))
            (okStorage_swapLib_r _ _)
  | doMapSucc j => exact allOk_append _ _ hw (okStorage_mapC _ _)
  | doAndThenJust j => exact allOk_append _ _ hw (okStorage_andThenJust _)
  | doAndThenNone j => exact allOk_append _ _ hw (okStorage_andThenNone _)

theorem run_allOk_aux (ops : List Op) (w : List (Storage Nat))
    (hw : allOk w = true) : allOk (ops.foldl step w) = true := by
  induction ops generalizing w with
  | nil => exact hw
  | cons op ops ih => exact ih (step w op) (step_allOk w op hw)

/-- Claim C1 counterexample: after constructing a maybe holding 1 and
move-constructing a new maybe from it, the moved-from container has
`m_is_engaged = false` while its buffer still holds the live moved-from
object — the discriminant and the storage state ARE inconsistent, refuting
the claimed two-sided invariant. -/
theorem c1_counterexample :
    (run [Op.newVal 1, Op.newMove 0]).all
      (fun c => c.is_engaged == c.bytes.isSome) = false := by
  decide

/-- Claim C1 amended: on every finite operation sequence, `has_value()` is
true for a container iff a value was most recently constructed into its slot
and not since reset, taken, or moved-from (the spec-level engagement
machine); and the discriminant-storage consistency holds in the one
direction the code maintains — an engaged discriminant always has a
constructed object in the buffer. The converse fails: a moved-from
container's buffer retains the live moved-from object while its discriminant
says empty. -/
theorem c1_engagement_amended (ops : List Op) :
    flags (run ops) = specRun ops ∧ allOk (run ops) = true :=
  ⟨run_flags ops, run_allOk_aux ops [] rfl⟩

end Spec2Proof
